import Mathlib

/-!
A shallow embedding of the widget-normalization, authentication and
encryption pipeline of `flask_geckoboard/decorators.py`, together with
theorems settling the specification claims about it.

Conventions of the embedding:
* Python byte strings are `List Nat`, Python ints are `Int`.
* Python dictionaries with a fixed key set become structures whose
  fields are `Option`-valued when the key may be absent; dictionaries
  used as growing key/value stores become association lists.
* A Python function that can raise becomes `Except String`; the error
  string names the Python exception that the interpreter would raise
  at that statement.
-/

namespace FlaskGeckoboard

/-! ### RAG widget (`RAGWidgetDecorator._convert_view_result`) -/

/-- An element of the sequence returned by a RAG view: either a bare
value or a `(value, text)` pair; the value may be Python `None`. -/
inductive RagElem (α β : Type) : Type
  | single : Option α → RagElem α β
  | pair : Option α → β → RagElem α β
deriving DecidableEq, Repr

/-- The `value` field of a produced RAG item: the original value, or
the empty string substituted for `None`. -/
inductive RagValue (α : Type) : Type
  | emptyString : RagValue α
  | val : α → RagValue α
deriving DecidableEq, Repr

/-- One entry of the `item` list produced by the RAG normalizer. -/
structure RagItem (α β : Type) : Type where
  value : RagValue α
  text : Option β
deriving DecidableEq, Repr

/-- Per-element translation done inside the loop of
`RAGWidgetDecorator._convert_view_result`: a non-sequence element is
wrapped, `elem[0] is None` becomes the empty string, and `text` is set
only when the element has a second component. -/
def ragItemOfElem {α β : Type} : RagElem α β → RagItem α β
  | .single none => ⟨.emptyString, none⟩
  | .single (some v) => ⟨.val v, none⟩
  | .pair none t => ⟨.emptyString, some t⟩
  | .pair (some v) t => ⟨.val v, some t⟩

/-- The accumulating loop of `RAGWidgetDecorator._convert_view_result`
(`items = []; for elem in result: ... items.append(item)`). -/
def ragConvertLoop {α β : Type} (acc : List (RagItem α β)) :
    List (RagElem α β) → List (RagItem α β)
  | [] => acc
  | e :: rest => ragConvertLoop (acc ++ [ragItemOfElem e]) rest

/-- Model of `RAGWidgetDecorator._convert_view_result`, returning the `item`
list of the payload `{'item': items}`. -/
def ragConvert {α β : Type} (result : List (RagElem α β)) : List (RagItem α β) :=
  ragConvertLoop [] result

/-! ### Funnel widget (`FunnelWidgetDecorator._convert_view_result`) -/

/-- Byte-wise (Python 2) less-or-equal comparison on character lists. -/
def charListLeB : List Char → List Char → Bool
  | [], _ => true
  | _ :: _, [] => false
  | a :: as, b :: bs =>
      if a.toNat < b.toNat then true
      else if a.toNat = b.toNat then charListLeB as bs
      else false

/-- Python 2 string comparison, lexicographic on bytes. -/
def strLeB (a b : String) : Bool :=
  charListLeB a.data b.data

/-- The ordering used by `items.sort(reverse=True)` on `(value, label)`
tuples: `a` precedes `b` when `a` is lexicographically at least `b`
(first on the value, then on the label). -/
def tupleGe (a b : Int × String) : Prop :=
  b.1 < a.1 ∨ (b.1 = a.1 ∧ strLeB b.2 a.2 = true)

instance : DecidableRel tupleGe := fun a b => by
  unfold tupleGe; infer_instance

/-- Input mapping of the funnel normalizer; every key is optional in
the code (`items` falls back to `[]` via `result.get('items', [])`). -/
structure FunnelInput : Type where
  items? : Option (List (Int × String))
  type? : Option String
  percentage? : Option String
  sort? : Option Bool
deriving DecidableEq, Repr

/-- One `{'value': ..., 'label': ...}` mapping of the funnel payload. -/
structure FunnelItem : Type where
  value : Int
  label : String
deriving DecidableEq, Repr

/-- The funnel payload `{'item': ..., 'type': ..., 'percentage': ...}`. -/
structure FunnelOutput : Type where
  item : List FunnelItem
  type : String
  percentage : String
deriving DecidableEq, Repr

/-- Model of `FunnelWidgetDecorator._convert_view_result`: missing `items`
defaults to the empty list, a truthy `sort` sorts the pairs in reverse
tuple order, and `type`/`percentage` default to
`"standard"`/`"show"`. -/
def funnelConvert (result : FunnelInput) : FunnelOutput :=
  let items := result.items?.getD []
  let items := if result.sort?.getD false then items.insertionSort tupleGe else items
  { item := items.map (fun p => ⟨p.1, p.2⟩)
    type := result.type?.getD "standard"
    percentage := result.percentage?.getD "show" }

/-! ### Authenticator (`_is_api_key_correct`) -/

/-- The HTTP authorization data attached to a request. -/
structure BasicAuth : Type where
  type : String
  username : String
  password : String
deriving DecidableEq, Repr

/-- Model of `_is_api_key_correct`: open access when no key is configured;
otherwise basic credentials with username equal to the key and
password `"X"` are required. -/
def is_api_key_correct (api_key : Option String) (auth : Option BasicAuth) : Bool :=
  match api_key with
  | none => true
  | some key =>
      match auth with
      | some a =>
          if a.type == "basic" then a.username == key && a.password == "X"
          else false
      | none => false

/-! ### Bullet widget (`BulletWidgetDecorator._convert_view_result`) -/

/-- One entry of the bullet `range` list, a mapping with keys
`color`, `start` and `end`. -/
structure RangeEntry : Type where
  color : String
  start : Int
  stop : Int
deriving DecidableEq, Repr

/-- Input mapping of the bullet normalizer.  `current` and `projected`
are either singletons (`Sum.inl`) or `(start, end)` pairs
(`Sum.inr`). -/
structure BulletInput : Type where
  label? : Option String
  axis_points? : Option (List Int)
  current? : Option (Sum Int (Int × Int))
  projected? : Option (Sum Int (Int × Int))
  comparative? : Option Int
  range? : Option (List RangeEntry)
  sublabel? : Option String
  auto_scale? : Option Bool
  orientation? : Option String
deriving DecidableEq, Repr

/-- One entry of the bullet payload `item` list. -/
structure BulletItem : Type where
  label : String
  axis_point : List Int
  range : List RangeEntry
  measure_current : Int × Int
  measure_projected : Option (Int × Int)
  comparative : Option Int
  sublabel : Option String
deriving DecidableEq, Repr

/-- The full bullet payload `{'item': ..., 'orientation': ...}`. -/
structure BulletOutput : Type where
  item : List BulletItem
  orientation : String
deriving DecidableEq, Repr

/-- Python `max` over a list of ints (meaningful for non-empty lists;
the code only applies it under an `if axis_points` guard). -/
def listMax (l : List Int) : Int :=
  l.foldl max (l.head?.getD 0)

/-- Final `data = dict(label=..., axis=..., range=..., measure=...)`
assembly of one bullet item. -/
def bulletAssemble (label : String) (axis_points : List Int)
    (rng : List RangeEntry) (current : Int × Int)
    (projected : Option (Int × Int)) (result : BulletInput) : BulletItem :=
  { label := label
    axis_point := axis_points
    range := rng
    measure_current := current
    measure_projected := projected
    comparative := result.comparative?
    sublabel := result.sublabel? }

/-- The auto-scale section of `BulletWidgetDecorator._convert_view_result`.
When `auto_scale` is truthy, `axis_points` is non-empty and the largest
axis point reaches one of the 1e9/1e6/1e3 buckets, the code scales
`axis_points`, `current` and `projected` and then evaluates
`red = (scaler(red[0], scale), ...)` — but no name `red` is bound
anywhere in the function, so the interpreter raises `NameError` there
and the scaled values are discarded. -/
def bulletScale (label : String) (axis_points : List Int) (current : Int × Int)
    (projected : Option (Int × Int)) (rng : List RangeEntry)
    (result : BulletInput) : Except String BulletItem :=
  let auto_scale := result.auto_scale?.getD true
  if auto_scale = true ∧ axis_points ≠ [] then
    let value := listMax axis_points
    let scale : Int :=
      if 1000000000 ≤ value then 1000000000
      else if 1000000 ≤ value then 1000000
      else if 1000 ≤ value then 1000
      else 1
    if 1 < scale then
      .error "NameError: name red is not defined"
    else
      .ok (bulletAssemble label axis_points rng current projected result)
  else
    .ok (bulletAssemble label axis_points rng current projected result)

/-- Model of `BulletWidgetDecorator._convert_view_result` on one input mapping.
Required keys are checked first; singleton `current`/`projected` are
expanded to `(0, value)` ranges.  When `range` is falsy and
`axis_points` is non-empty, the default-range branch executes
`range.append(...)` — `range` being the Python builtin, which has no
`append` attribute, so the interpreter raises `AttributeError` there
(and `_range` would have stayed empty regardless). -/
def bulletConvertOne (result : BulletInput) : Except String BulletItem :=
  match result.label?, result.axis_points?, result.current? with
  | none, _, _ => .error "RuntimeError: Key label is required"
  | some _, none, _ => .error "RuntimeError: Key axis_points is required"
  | some _, some _, none => .error "RuntimeError: Key current is required"
  | some label, some axis_points, some current0 =>
      let current : Int × Int :=
        match current0 with
        | .inl v => (0, v)
        | .inr p => p
      let projected : Option (Int × Int) :=
        match result.projected? with
        | none => none
        | some (.inl v) => some (0, v)
        | some (.inr p) => some p
      let range0 := result.range?.getD []
      if range0 = [] then
        if axis_points = [] then
          bulletScale label axis_points current projected
            [⟨"red", 0, 0⟩, ⟨"amber", 0, 0⟩, ⟨"green", 0, 0⟩] result
        else
          .error "AttributeError: builtin range has no attribute append"
      else
        bulletScale label axis_points current projected range0 result

/-- Model of `BulletWidgetDecorator._convert_view_result` on a single (non-list)
view result: the code wraps it into a one-element list, converts it,
and returns `dict(item=items, orientation=...)`. -/
def bulletConvert (result : BulletInput) : Except String BulletOutput :=
  match bulletConvertOne result with
  | .error e => .error e
  | .ok item => .ok { item := [item], orientation := result.orientation?.getD "horizontal" }

/-! ### Line chart, modern (`LineChartWidgetDecorator._convert_view_result`) -/

/-- One entry of the `series` list: a mapping that may or may not
carry a `data` key. -/
structure SeriesEntry : Type where
  data? : Option (List Int)
  name? : Option String
deriving DecidableEq, Repr

/-- The documented input shape: a mapping with `series` and optional
`x_axis`/`y_axis`. -/
structure LineChartDict : Type where
  series? : Option (List SeriesEntry)
  x_axis? : Option String
  y_axis? : Option String
deriving DecidableEq, Repr

/-- A view result reaching the line-chart normalizer: either a mapping
(the documented shape) or a Python list of strings. -/
inductive LineChartInput : Type
  | dict : LineChartDict → LineChartInput
  | pylist : List String → LineChartInput
deriving DecidableEq, Repr

/-- The intended output `{series, x_axis?, y_axis?}` (never actually
produced by the code). -/
structure LineChartOutput : Type where
  series : List SeriesEntry
  x_axis : Option String
  y_axis : Option String
deriving DecidableEq, Repr

/-- Model of `isinstance(result, list)`. -/
def lcIsList : LineChartInput → Bool
  | .dict _ => false
  | .pylist _ => true

/-- Python `'series' in result`: key lookup on a mapping, membership
test on a list. -/
def lcHasSeries : LineChartInput → Bool
  | .dict d => d.series?.isSome
  | .pylist l => l.contains "series"

/-- Model of `LineChartWidgetDecorator._convert_view_result`.  The guard
`if not isinstance(result, list) or 'series' not in result` raises for
every mapping input (the check demands a *list*), and a list input
that contains the string `"series"` then crashes on `result.get`,
which lists do not have — so no input ever reaches the assembly code
below the guard. -/
def lineChartConvert (result : LineChartInput) : Except String LineChartOutput :=
  if (!lcIsList result || !lcHasSeries result) = true then
    .error "RuntimeError: Key series is required"
  else
    .error "AttributeError: list object has no attribute get"

/-! ### Encryptor (`_derive_key_and_iv`, `_encrypt`) -/

/-- The AES block size, `AES.block_size`. -/
def blockSize : Nat := 16

/-- The literal marker `'Salted__'` as bytes. -/
def saltedMarker : List Nat := [83, 97, 108, 116, 101, 100, 95, 95]

/-- The padding lambda of `_encrypt`:
`s + (BS - len(s) % BS) * chr(BS - len(s) % BS)`. -/
def padCode (s : List Nat) : List Nat :=
  s ++ List.replicate (blockSize - s.length % blockSize) (blockSize - s.length % blockSize)

/-- PKCS#7-style padding as the specification words it: the pad byte
equals the number of bytes needed to reach a block boundary, and a
full block of padding is added when the input is already aligned. -/
def pkcs7Pad (s : List Nat) : List Nat :=
  if s.length % blockSize = 0 then
    s ++ List.replicate blockSize blockSize
  else
    s ++ List.replicate (blockSize - s.length % blockSize) (blockSize - s.length % blockSize)

/-- Byte-wise xor of two equal-length byte strings. -/
def xorBytes (a b : List Nat) : List Nat :=
  List.zipWith (fun x y => Nat.xor x y) a b

set_option linter.unusedVariables false in
/-- Cipher-block-chaining encryption as performed by
`AES.new(key, AES.MODE_CBC, iv).encrypt` on a block-aligned input:
each plaintext block is xor-ed with the previous ciphertext block
(the IV for the first) and passed through the block cipher `E`. -/
def cbcEncrypt (E : List Nat → List Nat → List Nat) (key : List Nat)
    (iv : List Nat) (s : List Nat) : List Nat :=
  if hnil : s = [] then []
  else
    let c := E key (xorBytes iv (s.take blockSize))
    c ++ cbcEncrypt E key c (s.drop blockSize)
termination_by s.length
decreasing_by
  simp only [List.length_drop, blockSize]
  have hlen : s.length ≠ 0 := fun h0 => hnil (List.eq_nil_of_length_eq_zero h0)
  omega

/-- The body of the `while len(d) < key_length + iv_length` loop of
`_derive_key_and_iv`, unrolled on explicit fuel.  One fuel unit per
iteration; since every MD5 digest contributes 16 bytes, fuel equal to
the number of bytes still needed always suffices, so with
`fuel = key_length + iv_length` this computes exactly what the
source's loop computes. -/
def deriveLoop (md5f : List Nat → List Nat) (password salt : List Nat)
    (needed : Nat) : Nat → List Nat → List Nat → List Nat
  | 0, d, _ => d
  | fuel + 1, d, d_i =>
      if d.length < needed then
        let digest := md5f (d_i ++ password ++ salt)
        deriveLoop md5f password salt needed fuel (d ++ digest) digest
      else d

/-- Model of `_derive_key_and_iv`, with the hash function `md5` abstracted as a
parameter: iterated hashing of digest + password + salt, then slicing
`d[:key_length]` and `d[key_length:key_length+iv_length]`. -/
def derive_key_and_iv (md5f : List Nat → List Nat) (password salt : List Nat)
    (key_length iv_length : Nat) : List Nat × List Nat :=
  let d := deriveLoop md5f password salt (key_length + iv_length)
    (key_length + iv_length) [] []
  (d.take key_length, (d.drop key_length).take iv_length)

/-- The base64 alphabet. -/
def b64Char (n : Nat) : Char :=
  ("ABCDEFGHIJKLMNOPQRSTUVWXYZabcdefghijklmnopqrstuvwxyz0123456789+/".toList).getD n 'A'

/-- Standard base64 encoding of a byte string, with `'='` padding. -/
def base64encode : List Nat → List Char
  | a :: b :: c :: rest =>
      let n := a * 65536 + b * 256 + c
      b64Char (n / 262144 % 64) :: b64Char (n / 4096 % 64) ::
        b64Char (n / 64 % 64) :: b64Char (n % 64) :: base64encode rest
  | [a, b] =>
      let n := a * 65536 + b * 256
      [b64Char (n / 262144 % 64), b64Char (n / 4096 % 64), b64Char (n / 64 % 64), '=']
  | [a] =>
      let n := a * 65536
      [b64Char (n / 262144 % 64), b64Char (n / 4096 % 64), '=', '=']
  | [] => []

/-- Model of `_encrypt` with the configured passphrase, the per-call random
salt, the hash function and the block cipher made explicit:
pad, derive key and IV, CBC-encrypt, prepend `'Salted__'` and the
salt, and base64-encode the whole. -/
def encrypt (md5f : List Nat → List Nat) (E : List Nat → List Nat → List Nat)
    (password salt data : List Nat) : List Char :=
  let kd := derive_key_and_iv md5f password salt 32 blockSize
  base64encode (saltedMarker ++ salt ++ cbcEncrypt E kd.1 kd.2 (padCode data))

/-- Model of `_encrypt` as called per request: the configured password
may be `None`, in which case the first loop iteration of
`_derive_key_and_iv` evaluates `d_i + password + salt` with
`password = None` and the interpreter raises `TypeError`. -/
def encryptRequest (md5f : List Nat → List Nat)
    (E : List Nat → List Nat → List Nat) (password? : Option (List Nat))
    (salt data : List Nat) : Except String (List Char) :=
  match password? with
  | none => .error "TypeError: cannot concatenate str and NoneType objects"
  | some password => .ok (encrypt md5f E password salt data)

/-! ### Dispatcher state (`WidgetDecorator.__new__` / `__call__`) -/

/-- Model of `WidgetDecorator.__new__`: pops `encrypted` (raising
`GeckoboardException` when the crypto library is missing) and stores
the rest.  The configured passphrase is *not* consulted here, which
the unused third argument records. -/
def widgetNew (encrypted_arg : Option Bool) (encryption_enabled : Bool)
    (_passphrase_configured : Bool) : Except String (Option Bool) :=
  if encrypted_arg.isSome && !encryption_enabled then
    .error "GeckoboardException: use of encryption requires the pycrypto package"
  else
    .ok encrypted_arg

/-- Python `dict.update`: keys of `new` take precedence, the other
keys of `d` keep their values (association-list model of the dict). -/
def dictUpdate (d new : List (String × Nat)) : List (String × Nat) :=
  d.filter (fun kv => (new.lookup kv.1).isNone) ++ new

/-- The per-request body of `decorated_view`: each request executes
`self.data.update(data)` — mutating the decorator's stored dict — and
renders `self.data`.  Given the initial `self.data` (the decoration
kwargs) and the sequence of normalized view results, this returns the
sequence of rendered payloads, threading the mutated dict through. -/
def runRequests (opts : List (String × Nat)) :
    List (List (String × Nat)) → List (List (String × Nat))
  | [] => []
  | r :: rs =>
      let updated := dictUpdate opts r
      updated :: runRequests updated rs


/-! ### Helper lemmas -/

theorem ragConvertLoop_eq_append {α β : Type} (xs : List (RagElem α β)) :
    ∀ acc, ragConvertLoop acc xs = acc ++ xs.map ragItemOfElem := by
  induction xs with
  | nil => intro acc; simp [ragConvertLoop]
  | cons e rest ih =>
      intro acc
      simp [ragConvertLoop, ih]

theorem charListLeB_total (x y : List Char) :
    charListLeB x y = true ∨ charListLeB y x = true := by
  induction x generalizing y with
  | nil => left; rfl
  | cons a as ih =>
      cases y with
      | nil => right; rfl
      | cons b bs =>
          rcases Nat.lt_trichotomy a.toNat b.toNat with h | h | h
          · left; simp [charListLeB, h]
          · rcases ih bs with h' | h'
            · left; simp [charListLeB, h, h']
            · right; simp [charListLeB, h.symm, h']
          · right; simp [charListLeB, h]

theorem charListLeB_trans (x y z : List Char)
    (hxy : charListLeB x y = true) (hyz : charListLeB y z = true) :
    charListLeB x z = true := by
  induction x generalizing y z with
  | nil => rfl
  | cons a as ih =>
      cases y with
      | nil => simp [charListLeB] at hxy
      | cons b bs =>
          cases z with
          | nil => simp [charListLeB] at hyz
          | cons c cs =>
              simp only [charListLeB] at hxy hyz ⊢
              by_cases hab : a.toNat < b.toNat
              · by_cases hbc : b.toNat < c.toNat
                · simp [show a.toNat < c.toNat by omega]
                · by_cases hbc' : b.toNat = c.toNat
                  · simp [show a.toNat < c.toNat by omega]
                  · simp [hbc, hbc'] at hyz
              · by_cases hab' : a.toNat = b.toNat
                · by_cases hbc : b.toNat < c.toNat
                  · simp [show a.toNat < c.toNat by omega]
                  · by_cases hbc' : b.toNat = c.toNat
                    · have h1 : ¬ a.toNat < c.toNat := by omega
                      have h2 : a.toNat = c.toNat := by omega
                      simp [hab, hab'] at hxy
                      simp [hbc, hbc'] at hyz
                      simp [h1, h2]
                      exact ih _ _ hxy hyz
                    · simp [hbc, hbc'] at hyz
                · simp [hab, hab'] at hxy

instance : IsTotal (Int × String) tupleGe where
  total a b := by
    unfold tupleGe
    rcases lt_trichotomy a.1 b.1 with h | h | h
    · right; left; exact h
    · rcases charListLeB_total a.2.data b.2.data with h' | h'
      · right; right; exact ⟨h, h'⟩
      · left; right; exact ⟨h.symm, h'⟩
    · left; left; exact h

instance : IsTrans (Int × String) tupleGe where
  trans a b c hab hbc := by
    unfold tupleGe at hab hbc ⊢
    rcases hab with h1 | ⟨h1, h1'⟩
    · rcases hbc with h2 | ⟨h2, h2'⟩
      · left; exact lt_trans h2 h1
      · left; exact h2 ▸ h1
    · rcases hbc with h2 | ⟨h2, h2'⟩
      · left; exact h1 ▸ h2
      · right
        exact ⟨h2.trans h1, charListLeB_trans _ _ _ h2' h1'⟩


/-! ### Claim theorems -/

/-- C10: the RAG normalizer applies no length check: for every input
sequence, of any length, it succeeds and produces exactly one item per
element in input order — the element-wise translation `ragItemOfElem`,
which substitutes the empty string for a `None` value and adds `text`
exactly when the element is a pair. -/
theorem rag_convert_elementwise {α β : Type} (xs : List (RagElem α β)) :
    ragConvert xs = xs.map ragItemOfElem ∧ (ragConvert xs).length = xs.length := by
  have h : ragConvert xs = xs.map ragItemOfElem := by
    simpa [ragConvert] using ragConvertLoop_eq_append xs []
  exact ⟨h, by rw [h, List.length_map]⟩

/-- C4: with a configured API key, the authenticator succeeds exactly
on basic credentials whose username is the key and whose password is
the literal `"X"`; with no configured key it succeeds on every
request. -/
theorem api_key_check_characterization (key? : Option String) (auth : Option BasicAuth) :
    is_api_key_correct key? auth = true ↔
      (key? = none ∨ ∃ k, key? = some k ∧ auth = some ⟨"basic", k, "X"⟩) := by
  cases key? with
  | none => simp [is_api_key_correct]
  | some k =>
      cases auth with
      | none => simp [is_api_key_correct]
      | some a =>
          obtain ⟨t, u, p⟩ := a
          by_cases ht : t = "basic"
          · subst ht
            simp [is_api_key_correct]
          · simp [is_api_key_correct, ht]

/-- Witness for C4 at a concrete key and credential. -/
theorem api_key_check_witness :
    is_api_key_correct (some "SECRET") (some ⟨"basic", "SECRET", "X"⟩) = true :=
  (api_key_check_characterization (some "SECRET") (some ⟨"basic", "SECRET", "X"⟩)).mpr
    (Or.inr ⟨"SECRET", rfl, rfl⟩)

/-- C8 counterexample: on a mapping without `items` the funnel
normalizer does not fail — `result.get('items', [])` substitutes the
empty list and a payload is produced. -/
theorem funnel_missing_items_succeeds :
    funnelConvert ⟨none, none, none, none⟩ = ⟨[], "standard", "show"⟩ := rfl

/-- C8 amended: for every input mapping lacking `items`, the funnel
normalizer succeeds with an empty `item` list and the usual
`type`/`percentage` defaults. -/
theorem funnel_missing_items_payload (inp : FunnelInput) (h : inp.items? = none) :
    funnelConvert inp = ⟨[], inp.type?.getD "standard", inp.percentage?.getD "show"⟩ := by
  unfold funnelConvert
  rw [h]
  cases hs : inp.sort?.getD false <;> simp [hs, List.insertionSort]

/-- Witness for the amended C8 at a concrete input. -/
theorem funnel_missing_items_witness :
    funnelConvert ⟨none, some "reverse", none, some true⟩ = ⟨[], "reverse", "show"⟩ :=
  funnel_missing_items_payload ⟨none, some "reverse", none, some true⟩ rfl

/-- C9: in every funnel output, `type` carries the input's type (or
`"standard"` when absent) and `percentage` the input's percentage (or
`"show"` when absent); and whenever `sort` is set to true, the output
items are exactly the input `(value, label)` pairs mapped to
`{value, label}` records, reordered so that values are descending. -/
theorem funnel_sort_descending (inp : FunnelInput) :
    (funnelConvert inp).type = inp.type?.getD "standard" ∧
    (funnelConvert inp).percentage = inp.percentage?.getD "show" ∧
    (inp.sort? = some true →
      (funnelConvert inp).item.Perm
          ((inp.items?.getD []).map (fun p => FunnelItem.mk p.1 p.2)) ∧
      (funnelConvert inp).item.Pairwise (fun a b => b.value ≤ a.value)) := by
  refine ⟨by simp [funnelConvert], by simp [funnelConvert], fun hs => ?_⟩
  have hitem : (funnelConvert inp).item =
      ((inp.items?.getD []).insertionSort tupleGe).map (fun p => FunnelItem.mk p.1 p.2) := by
    simp [funnelConvert, hs]
  refine ⟨?_, ?_⟩
  · rw [hitem]
    exact (List.perm_insertionSort tupleGe (inp.items?.getD [])).map _
  · rw [hitem, List.pairwise_map]
    refine (List.sorted_insertionSort tupleGe (inp.items?.getD [])).imp ?_
    intro a b hab
    rcases hab with h | ⟨h, _⟩
    · exact le_of_lt h
    · exact le_of_eq h

/-- Witness for C9 on the specification's example input, discharging
the sort hypothesis there. -/
theorem funnel_sort_witness :
    funnelConvert ⟨some [(10, "a"), (30, "b"), (20, "c")], none, none, some true⟩ =
      ⟨[⟨30, "b"⟩, ⟨20, "c"⟩, ⟨10, "a"⟩], "standard", "show"⟩ ∧
    (funnelConvert
        ⟨some [(10, "a"), (30, "b"), (20, "c")], none, none, some true⟩).item.Pairwise
      (fun a b => b.value ≤ a.value) :=
  ⟨by decide,
    ((funnel_sort_descending
        ⟨some [(10, "a"), (30, "b"), (20, "c")], none, none, some true⟩).2.2 rfl).2⟩

/-- C3: the modern line-chart normalizer raises for *every* mapping
input, `series` present or not, because the guard
`not isinstance(result, list)` demands a list while the documented
input (and every later access) is a mapping — so no input ever
succeeds, contradicting the claimed success path. -/
theorem line_chart_rejects_every_mapping (d : LineChartDict) :
    lineChartConvert (.dict d) = .error "RuntimeError: Key series is required" := rfl

/-- C1: for every bullet input with the required keys, a non-empty
`axis_points` and no (or an empty) `range`, the default-range branch
raises `AttributeError` — the code appends to the Python builtin
`range` instead of its `_range` variable — so the claimed red/amber/
green thirds are never produced. -/
theorem bullet_default_range_attribute_error (inp : BulletInput) (aps : List Int)
    (hl : inp.label?.isSome = true) (ha : inp.axis_points? = some aps)
    (hc : inp.current?.isSome = true) (hr : inp.range?.getD [] = [])
    (hne : aps ≠ []) :
    bulletConvert inp = .error "AttributeError: builtin range has no attribute append" := by
  obtain ⟨label, hl'⟩ := Option.isSome_iff_exists.mp hl
  obtain ⟨cur, hc'⟩ := Option.isSome_iff_exists.mp hc
  have h1 : bulletConvertOne inp =
      .error "AttributeError: builtin range has no attribute append" := by
    simp only [bulletConvertOne, hl', ha, hc', hr]
    simp [hne]
  simp [bulletConvert, h1]

/-- Witness for C1 on the specification's example input
(`axis_points=[0,900]`, `current=500`, no `range`, `auto_scale`
false). -/
theorem bullet_default_range_witness :
    bulletConvert ⟨some "Revenue 2011 YTD", some [0, 900], some (.inl 500), none, none,
        none, none, some false, none⟩ =
      .error "AttributeError: builtin range has no attribute append" :=
  bullet_default_range_attribute_error _ [0, 900] rfl rfl rfl rfl (by decide)

/-- C2: for every bullet input with the required keys, a supplied
non-empty `range`, truthy `auto_scale` and a maximum axis point of at
least 1000, the scaling branch raises `NameError` — it reads the
never-bound names `red`, `amber`, `green` — so the claimed scaled
payload and sublabel are never produced.  (Without a supplied `range`
the `AttributeError` of the default-range branch fires first.) -/
theorem bullet_autoscale_name_error (inp : BulletInput) (aps : List Int)
    (rng : List RangeEntry)
    (hl : inp.label?.isSome = true) (ha : inp.axis_points? = some aps)
    (hc : inp.current?.isSome = true) (hr : inp.range?.getD [] = rng)
    (hrne : rng ≠ []) (hs : inp.auto_scale?.getD true = true)
    (hmax : 1000 ≤ listMax aps) :
    bulletConvert inp = .error "NameError: name red is not defined" := by
  obtain ⟨label, hl'⟩ := Option.isSome_iff_exists.mp hl
  obtain ⟨cur, hc'⟩ := Option.isSome_iff_exists.mp hc
  have hane : aps ≠ [] := by
    intro h0
    rw [h0] at hmax
    simp [listMax] at hmax
  have h1 : bulletConvertOne inp = .error "NameError: name red is not defined" := by
    simp only [bulletConvertOne, hl', ha, hc', hr]
    rw [if_neg hrne]
    simp only [bulletScale, hs]
    rw [if_pos (⟨by simp, hane⟩ : _ ∧ aps ≠ [])]
    by_cases h9 : (1000000000 : Int) ≤ listMax aps
    · simp [h9]
    · by_cases h6 : (1000000 : Int) ≤ listMax aps
      · simp [h9, h6]
      · simp [h9, h6, hmax]
  simp [bulletConvert, h1]

/-- Witness for C2 with `axis_points=[0,5000]`, default `auto_scale`
and a supplied `range` (so the default-range branch is skipped). -/
theorem bullet_autoscale_witness :
    bulletConvert ⟨some "Revenue", some [0, 5000], some (.inl 500), none, none,
        some [⟨"red", 0, 1000⟩, ⟨"amber", 1000, 3000⟩, ⟨"green", 3000, 5000⟩],
        none, none, none⟩ =
      .error "NameError: name red is not defined" :=
  bullet_autoscale_name_error _ [0, 5000] _ rfl rfl rfl rfl (by decide) rfl (by decide)

/-- C6 counterexample: decorating with empty options and serving two
requests whose normalized data are `{a: 1}` and then `{b: 2}`, the
second response still contains key `a` from the first request — the
decorator's stored dict is mutated by `self.data.update(data)` — and
differs from the options merged with only the second request's data. -/
theorem stale_options_counterexample :
    ((runRequests [] [[("a", 1)], [("b", 2)]]).getD 1 []).lookup "a" = some 1 ∧
    (runRequests [] [[("a", 1)], [("b", 2)]]).getD 1 [] ≠ dictUpdate [] [("b", 2)] := by
  exact ⟨rfl, by decide⟩

/-- C6 amended: the decorator's stored dict accumulates across
requests — the n-th response payload equals the decoration-time
options updated, in order, with the normalized data of every request
served so far (later requests taking precedence key-by-key). -/
theorem payloads_accumulate (opts : List (String × Nat))
    (reqs : List (List (String × Nat))) (n : Nat) (h : n < reqs.length) :
    (runRequests opts reqs).getD n [] = (reqs.take (n + 1)).foldl dictUpdate opts := by
  induction reqs generalizing opts n with
  | nil => simp at h
  | cons r rs ih =>
      cases n with
      | zero => simp [runRequests]
      | succ m =>
          have h' : m < rs.length := by simpa using h
          simp only [runRequests, List.take_succ_cons, List.foldl_cons]
          rw [List.getD_cons_succ]
          exact ih (dictUpdate opts r) m h'

/-- Witness for the amended C6 at a concrete two-request run. -/
theorem payloads_accumulate_witness :
    (runRequests [("color", 7)] [[("a", 1)], [("b", 2)]]).getD 1 [] =
      ([[("a", 1)], [("b", 2)]].take 2).foldl dictUpdate [("color", 7)] :=
  payloads_accumulate [("color", 7)] [[("a", 1)], [("b", 2)]] 1 (by decide)

/-- C7 counterexample: with the crypto library available, encryption
requested and *no* passphrase configured, decoration succeeds — no
error is raised at decoration time — while the per-request encryption
step then fails. -/
theorem decoration_skips_passphrase_check :
    widgetNew (some true) true false = .ok (some true) ∧
    encryptRequest (fun _ => []) (fun _ _ => []) none [] [] =
      .error "TypeError: cannot concatenate str and NoneType objects" :=
  ⟨rfl, rfl⟩

/-- C7 amended: decoration fails (with `GeckoboardException`) exactly
when encryption is requested and the crypto library is unavailable;
the configured passphrase is never consulted at decoration time, and
with no passphrase configured every request's encryption step fails
with `TypeError`. -/
theorem decoration_error_characterization (e : Option Bool) (enabled cfg : Bool) :
    ((∃ m, widgetNew e enabled cfg = .error m) ↔ (e.isSome = true ∧ enabled = false)) ∧
    (∀ (md5f : List Nat → List Nat) (E : List Nat → List Nat → List Nat)
        (salt data : List Nat),
      encryptRequest md5f E none salt data =
        .error "TypeError: cannot concatenate str and NoneType objects") := by
  constructor
  · unfold widgetNew
    by_cases h1 : e.isSome = true
    · by_cases h2 : enabled = true
      · simp [h1, h2]
      · have h2' : enabled = false := by
          cases enabled
          · rfl
          · exact absurd rfl h2
        simp [h1, h2']
    · have h1' : e.isSome = false := by
        cases h : e.isSome
        · rfl
        · exact absurd h h1
      simp [h1']
  · intro _ _ _ _
    rfl

/-- Witness for the amended C7: encryption requested with the library
unavailable does raise at decoration time. -/
theorem decoration_error_witness :
    ∃ m, widgetNew (some true) false true = .error m :=
  (decoration_error_characterization (some true) false true).1.mpr ⟨rfl, rfl⟩

theorem padCode_eq_pkcs7 (s : List Nat) : padCode s = pkcs7Pad s := by
  unfold padCode pkcs7Pad
  by_cases h : s.length % blockSize = 0
  · rw [if_pos h, h, Nat.sub_zero]
  · rw [if_neg h]

set_option linter.unusedVariables false in
/-- C5: for every plaintext, passphrase and salt of block-size minus
marker length, the encryptor's output is the base64 encoding of the
`'Salted__'` marker, then the salt, then the CBC encryption — under
the key and IV derived from passphrase and salt — of the plaintext
with PKCS#7-style padding (a full extra block when already
aligned). -/
theorem encrypt_salted_envelope (md5f : List Nat → List Nat)
    (E : List Nat → List Nat → List Nat) (password salt data : List Nat)
    (hsalt : salt.length = blockSize - saltedMarker.length) :
    encrypt md5f E password salt data =
      base64encode (saltedMarker ++ salt ++
        cbcEncrypt E (derive_key_and_iv md5f password salt 32 blockSize).1
          (derive_key_and_iv md5f password salt 32 blockSize).2 (pkcs7Pad data)) := by
  unfold encrypt
  rw [padCode_eq_pkcs7]

/-- Witness for C5 at a concrete hash, cipher, passphrase, salt and
plaintext. -/
theorem encrypt_salted_envelope_witness :
    (List.replicate 8 (0 : Nat)).length = blockSize - saltedMarker.length ∧
    encrypt (fun _ => List.replicate 16 1) (fun _ b => b) [7] (List.replicate 8 0) [1, 2, 3] =
      base64encode (saltedMarker ++ List.replicate 8 0 ++
        cbcEncrypt (fun _ b => b)
          (derive_key_and_iv (fun _ => List.replicate 16 1) [7]
            (List.replicate 8 0) 32 blockSize).1
          (derive_key_and_iv (fun _ => List.replicate 16 1) [7]
            (List.replicate 8 0) 32 blockSize).2
          (pkcs7Pad [1, 2, 3])) :=
  ⟨by decide, encrypt_salted_envelope _ _ _ _ _ (by decide)⟩

end FlaskGeckoboard
